import Mathlib

/-!
# Verification of `upnp-volume-locker` (src/main.py)

A shallow embedding of the core of `main.py`: the SOAP request primitive
(`send_soap_request`), the SSDP discovery loop's LOCATION accumulation and
socket lifecycle (`discover_devices`), the description resolver
(`parse_device_descriptions`), the control actions (`set_media_and_play`,
`set_volume`) and the volume-lock worker loop (`volume_setter_worker`).

Modelling conventions:
* Python strings are Lean `String`s (or `List Char` where line scanning is
  involved).  `str.lower` is modelled by `Char.toLower` (ASCII case folding,
  which is all the code relies on for the literal `"location:"` prefix), and
  `str.strip()` by `pyStrip` over Python's whitespace class.
* The network is an oracle passed in as a function: an HTTP POST issued by
  `requests.post` either yields a final response (after any redirects) with a
  status code, or raises a transport error (`requests.exceptions.RequestException`).
* Effects are made explicit: the control actions additionally return the list
  of SOAP requests they issued, in order, so that "no network call is made"
  claims are statable.
* Python `dict`s with the two fixed keys `AVTransport` / `RenderingControl`
  are a pair of `Option` fields; the general `found_devices` dict is an
  association list with Python's insertion-order update semantics.
-/

/-! ## Python string primitives used by the code -/

/-- Python's default whitespace class for `str.strip()` / `str.splitlines()`
(space, tab, newline, carriage return, vertical tab, form feed). -/
def isPyWhitespace (c : Char) : Bool :=
  c = ' ' || c = '\t' || c = '\n' || c = '\r' || c = '\x0b' || c = '\x0c'

/-- Python `str.strip()` on a character list: drop whitespace at both ends. -/
def pyStrip (s : List Char) : List Char :=
  ((s.dropWhile isPyWhitespace).reverse.dropWhile isPyWhitespace).reverse

/-- Python `str.strip()` on a `String`. -/
def pyStripStr (s : String) : String :=
  ⟨pyStrip s.data⟩

/-- Decidable prefix test on character lists (Python `str.startswith`). -/
def isPrefixL : List Char → List Char → Bool
  | [], _ => true
  | _ :: _, [] => false
  | a :: as, b :: bs => a == b && isPrefixL as bs

/-- Python's substring containment `needle in haystack`. -/
def containsSub (needle : List Char) : List Char → Bool
  | [] => isPrefixL needle []
  | c :: rest => isPrefixL needle (c :: rest) || containsSub needle rest

/-- Python `needle in haystack` on `String`s. -/
def containsSubStr (needle haystack : String) : Bool :=
  containsSub needle.data haystack.data

/-- ASCII lower-casing of a line, modelling `line.lower()` as used for the
case-insensitive `LOCATION:` header match. -/
def lowerL (l : List Char) : List Char :=
  l.map Char.toLower

/-- Everything after the first `':'`, modelling `line.split(':', 1)[1]`
(the code only evaluates this on lines that do contain a colon). -/
def afterFirstColon : List Char → List Char
  | [] => []
  | c :: rest => if c = ':' then rest else afterFirstColon rest

/-- Python `str.splitlines()` restricted to the line boundaries that occur in
SSDP responses: `\r\n`, `\r`, `\n`.  A trailing boundary produces no empty
final line, exactly as in Python. -/
def splitlinesAux : List Char → List Char → List (List Char)
  | [], acc => if acc.isEmpty then [] else [acc.reverse]
  | '\r' :: '\n' :: rest, acc => acc.reverse :: splitlinesAux rest []
  | '\r' :: rest, acc => acc.reverse :: splitlinesAux rest []
  | '\n' :: rest, acc => acc.reverse :: splitlinesAux rest []
  | c :: rest, acc => splitlinesAux rest (c :: acc)

/-- Python `response.splitlines()`. -/
def splitlines (s : List Char) : List (List Char) :=
  splitlinesAux s []

/-! ## The SOAP request primitive (`send_soap_request`, main.py lines 40-91) -/

/-- The data from which `send_soap_request` builds one HTTP POST. -/
structure SoapRequest where
  control_url : String
  service_type : String
  action : String
  arguments : String
deriving DecidableEq, Repr

/-- The SOAP envelope body built by `send_soap_request` (the `soap_body`
f-string, main.py lines 63-70). -/
def soap_body (r : SoapRequest) : String :=
  "<?xml version=\"1.0\" encoding=\"utf-8\"?>\n" ++
  "<s:Envelope xmlns:s=\"http://schemas.xmlsoap.org/soap/envelope/\" s:encodingStyle=\"http://schemas.xmlsoap.org/soap/encoding/\">\n" ++
  "    <s:Body>\n" ++
  "        <u:" ++ r.action ++ " xmlns:u=\"" ++ r.service_type ++ "\">\n" ++
  "            " ++ r.arguments ++ "\n" ++
  "        </u:" ++ r.action ++ ">\n" ++
  "    </s:Body>\n" ++
  "</s:Envelope>"

/-- The `SOAPACTION` header value, `f'"{service_type}#{action}"'` (line 74). -/
def soapaction_header (r : SoapRequest) : String :=
  "\"" ++ r.service_type ++ "#" ++ r.action ++ "\""

/-- A final HTTP response as surfaced by `requests.post` (after redirect
handling): a status code and a body. -/
structure HttpResponse where
  status : Nat
  body : String
deriving DecidableEq, Repr

/-- Outcome of one HTTP POST: either a final response, or a raised
`requests.exceptions.RequestException` (connection error, timeout,
too-many-redirects, ...). -/
inductive HttpOutcome where
  | response (resp : HttpResponse)
  | transportError
deriving DecidableEq, Repr

/-- Whether `requests.Response.raise_for_status()` raises: it raises `HTTPError` exactly for
client-error (4xx) and server-error (5xx) status codes; informational and
redirection statuses that surface as the final response do not raise. -/
def raise_for_status_raises (status : Nat) : Bool :=
  decide (400 ≤ status) && decide (status < 600)

/-- Model of `send_soap_request` (main.py lines 78-91): POST the envelope, call
`raise_for_status`, return the response; any `RequestException` (including
the `HTTPError` raised by `raise_for_status`) yields `None`.
The network is the oracle `http`. -/
def send_soap_request (http : SoapRequest → HttpOutcome) (r : SoapRequest) :
    Option HttpResponse :=
  match http r with
  | .transportError => none
  | .response resp =>
      if raise_for_status_raises resp.status then none else some resp

/-! ## Device records -/

/-- One resolved service: the dict `{'type': service_type, 'url': control_url}`
stored under a capability key (main.py lines 198, 200). -/
structure ServiceEndpoint where
  type : String
  url : String
deriving DecidableEq, Repr

/-- The `device_info['services']` dict.  Its only possible keys are
`'AVTransport'` and `'RenderingControl'`, so it is a pair of options;
assignment to a key overwrites (last-write-wins). -/
structure Services where
  avTransport : Option ServiceEndpoint
  renderingControl : Option ServiceEndpoint
deriving DecidableEq, Repr

/-- A `DeviceInfo` dict (main.py line 183). -/
structure DeviceInfo where
  location : String
  friendly_name : String
  services : Services
deriving DecidableEq, Repr

/-! ## Control actions (`set_media_and_play`, `set_volume`, main.py lines 238-268)

Each action returns its Python boolean result together with the list of SOAP
requests it handed to `send_soap_request`, in order. -/

/-- The `set_uri_args` f-string (line 246). -/
def set_uri_args (media_url : String) : String :=
  "<InstanceID>0</InstanceID><CurrentURI>" ++ media_url ++
  "</CurrentURI><CurrentURIMetaData></CurrentURIMetaData>"

/-- The `play_args` string (line 252). -/
def play_args : String :=
  "<InstanceID>0</InstanceID><Speed>1</Speed>"

/-- The `set_vol_args` f-string (line 267). -/
def set_vol_args (volume : Int) : String :=
  "<InstanceID>0</InstanceID><Channel>Master</Channel><DesiredVolume>" ++
  toString volume ++ "</DesiredVolume>"

/-- The `SetAVTransportURI` request issued by `set_media_and_play`. -/
def setURIRequest (av : ServiceEndpoint) (media_url : String) : SoapRequest :=
  { control_url := av.url, service_type := av.type,
    action := "SetAVTransportURI", arguments := set_uri_args media_url }

/-- The `Play` request issued by `set_media_and_play`. -/
def playRequest (av : ServiceEndpoint) : SoapRequest :=
  { control_url := av.url, service_type := av.type,
    action := "Play", arguments := play_args }

/-- The `SetVolume` request issued by `set_volume`. -/
def setVolumeRequest (rc : ServiceEndpoint) (volume : Int) : SoapRequest :=
  { control_url := rc.url, service_type := rc.type,
    action := "SetVolume", arguments := set_vol_args volume }

/-- Model of `set_media_and_play` (main.py lines 238-258): refuse without the
`AVTransport` capability; send `SetAVTransportURI`; only if that returned a
response, send `Play`; succeed iff `Play` also returned a response. -/
def set_media_and_play (http : SoapRequest → HttpOutcome)
    (device_info : DeviceInfo) (media_url : String) : Bool × List SoapRequest :=
  match device_info.services.avTransport with
  | none => (false, [])
  | some av =>
      let req1 := setURIRequest av media_url
      match send_soap_request http req1 with
      | none => (false, [req1])
      | some _ =>
          let req2 := playRequest av
          ((send_soap_request http req2).isSome, [req1, req2])

/-- Model of `set_volume` (main.py lines 261-268): refuse without `RenderingControl`;
otherwise succeed iff the single `SetVolume` request returned a response. -/
def set_volume (http : SoapRequest → HttpOutcome)
    (device_info : DeviceInfo) (volume : Int) : Bool × List SoapRequest :=
  match device_info.services.renderingControl with
  | none => (false, [])
  | some rc =>
      let req := setVolumeRequest rc volume
      ((send_soap_request http req).isSome, [req])

/-! ## Discovery: LOCATION accumulation (main.py lines 146-151)

Each reply received during the listen window is decoded to text; its lines are
scanned case-insensitively for a `location:` prefix, and the trimmed value
after the first colon is added to the `locations` set. -/

/-- The header prefix matched at line 149. -/
def locationHeader : List Char :=
  "location:".data

/-- The value the loop extracts from one line, when the line matches:
`line.split(':', 1)[1].strip()` guarded by `line.lower().startswith('location:')`. -/
def extractLoc (line : List Char) : Option (List Char) :=
  if isPrefixL locationHeader (lowerL line) then
    some (pyStrip (afterFirstColon line))
  else
    none

/-- One iteration of the line loop over the `locations` set. -/
def scanLine (locations : Finset (List Char)) (line : List Char) :
    Finset (List Char) :=
  match extractLoc line with
  | some v => insert v locations
  | none => locations

/-- One received reply: split into lines and scan each. -/
def scanReply (locations : Finset (List Char)) (data : List Char) :
    Finset (List Char) :=
  (splitlines data).foldl scanLine locations

/-- The `locations` set accumulated over every reply received during the
listen window (the replies are given in arrival order). -/
def discover_locations (replies : List (List Char)) : Finset (List Char) :=
  replies.foldl scanReply ∅

/-- The trimmed `LOCATION` values of a reply stream, in order of occurrence
(with repetitions): the reference list the accumulated set is compared to. -/
def locationValues (replies : List (List Char)) : List (List Char) :=
  replies.flatMap (fun data => (splitlines data).filterMap extractLoc)

/-! ## Discovery: socket lifecycle (main.py lines 110-158)

Control-flow skeleton of `discover_devices` with respect to the UDP sockets it
opens.  The two early returns (interface enumeration failure at line 114, zero
bindable interfaces at line 132) happen while `sockets` is empty.  During the
listen window only `socket.timeout` and `Exception` are caught; a
`BaseException` (e.g. `KeyboardInterrupt`, which the program's `main` expressly
anticipates) propagates, and the `sock.close()` loop at lines 157-158 — which
is not inside any `try/finally` or `with` block — is skipped. -/

/-- How far `discover_devices` got before returning. -/
inductive DiscoveryExit where
  /-- `netifaces.interfaces()` raised: `return {}` at line 114, no socket
  opened yet. -/
  | interfacesError
  /-- Zero sockets could be bound: `return {}` at line 132. -/
  | noSockets
  /-- The listen window ran to completion; the close loop at line 157 ran. -/
  | completed (bound : Nat)
  /-- An exception not caught inside the window (a `BaseException` such as
  `KeyboardInterrupt`) propagated out of the loop at lines 142-155 with
  `bound` sockets open. -/
  | windowEscape (bound : Nat)
deriving DecidableEq, Repr

/-- Sockets open when `discover_devices`'s frame is left, per exit path. -/
def socketsOpened : DiscoveryExit → Nat
  | .interfacesError => 0
  | .noSockets => 0
  | .completed bound => bound
  | .windowEscape bound => bound

/-- Sockets the function closed before its frame was left, per exit path:
only the `completed` path reaches the close loop at lines 157-158. -/
def socketsClosed : DiscoveryExit → Nat
  | .interfacesError => 0
  | .noSockets => 0
  | .completed bound => bound
  | .windowEscape _ => 0

/-! ## XML documents and `parse_device_descriptions` (main.py lines 165-210)

An `ET.fromstring` result is a tree of elements.  The code addresses every
element through the namespace map `UPNP_NS`, i.e. always in the namespace
`urn:schemas-upnp-org:device-1-0`, so tags are modelled by their local names.
`find('.//tag')` is the first matching strict descendant in document order;
`find('tag')` / `findall('tag')` address direct children only. -/

mutual
/-- An XML element: tag, text content (`None` for `<e></e>`), children.
(The children sit in a dedicated forest type, mutually inductive with the
element type, so that the document-order search below can be defined by
mutual structural recursion and computes definitionally.) -/
inductive XmlElem where
  | mk (tag : String) (text : Option String) (children : XmlForest)
/-- A list of sibling XML elements in document order. -/
inductive XmlForest where
  | nil
  | cons (e : XmlElem) (rest : XmlForest)
end

/-- The element's tag. -/
def XmlElem.tag : XmlElem → String
  | .mk t _ _ => t

/-- The element's text, as ElementTree's `.text` (`Option`). -/
def XmlElem.text : XmlElem → Option String
  | .mk _ tx _ => tx

/-- The element's direct children, in document order. -/
def XmlElem.children : XmlElem → XmlForest
  | .mk _ _ cs => cs

/-- View of a forest as a list. -/
def XmlForest.toList : XmlForest → List XmlElem
  | .nil => []
  | .cons e rest => e :: XmlForest.toList rest

/-- Builds a forest from a list (used to write document fixtures). -/
def XmlForest.ofList : List XmlElem → XmlForest
  | [] => .nil
  | e :: rest => .cons e (XmlForest.ofList rest)

mutual
/-- Document-order search of an element's subtree, the element included:
helper for `findInForest`. -/
def findInTree (tag : String) : XmlElem → Option XmlElem
  | .mk t tx cs =>
      if t = tag then some (.mk t tx cs) else findInForest tag cs
/-- ElementTree `element.find('.//name', UPNP_NS)` relative to a forest: the
first element with the given tag in preorder document order, searching each
tree of the forest completely before its right siblings. -/
def findInForest (tag : String) : XmlForest → Option XmlElem
  | .nil => none
  | .cons e rest =>
      match findInTree tag e with
      | some r => some r
      | none => findInForest tag rest
end

/-- ElementTree `element.find('name', UPNP_NS)`: first direct child with the
given tag. -/
def findChild (e : XmlElem) (tag : String) : Option XmlElem :=
  e.children.toList.find? (fun c => c.tag = tag)

/-- ElementTree `element.findall('name', UPNP_NS)`: all direct children with
the given tag, in document order. -/
def findallChildren (e : XmlElem) (tag : String) : List XmlElem :=
  e.children.toList.filter (fun c => c.tag = tag)

/-- Outcome of `requests.get(loc, timeout=3)` + `raise_for_status()` +
`ET.fromstring` for one location: either some failure (the location is
dropped) or a parsed document together with the final URL `response.url`
after redirects. -/
inductive FetchResult where
  | failure
  | success (finalUrl : String) (doc : XmlElem)

/-- The body of the service loop (main.py lines 187-200) acting on the
`(AVTransport, RenderingControl)` entries of the `services` dict: when both
`serviceType` and `controlURL` are present with text, resolve the control URL
against the final response URL and classify by substring — `AVTransport`
first, `RenderingControl` only in the `elif` branch. -/
def processService (urljoin : String → String → String) (base_url : String)
    (acc : Services) (service : XmlElem) : Services :=
  match findChild service "serviceType", findChild service "controlURL" with
  | some service_type_node, some control_url_node =>
      match service_type_node.text, control_url_node.text with
      | some service_type, some cu_text =>
          let control_url := urljoin base_url cu_text
          if containsSubStr "AVTransport" service_type then
            ⟨some ⟨service_type, control_url⟩, acc.renderingControl⟩
          else if containsSubStr "RenderingControl" service_type then
            ⟨acc.avTransport, some ⟨service_type, control_url⟩⟩
          else acc
      | _, _ => acc
  | _, _ => acc

/-- The `services` dict built for one device node (main.py lines 183-200):
take the first `serviceList` descendant of the device node, loop over its
direct `service` children. -/
def deviceServices (urljoin : String → String → String) (base_url : String)
    (device_node : XmlElem) : Services :=
  match findInForest "serviceList" device_node.children with
  | none => ⟨none, none⟩
  | some service_list =>
      (findallChildren service_list "service").foldl
        (processService urljoin base_url) ⟨none, none⟩

/-- Processing of one location inside the `for loc in locations` loop
(main.py lines 169-203), up to the capability guard at line 202: `None` when
the location is dropped, otherwise the key/record pair stored into
`found_devices`. -/
def processLocation (urljoin : String → String → String) (loc : String)
    (result : FetchResult) : Option (String × DeviceInfo) :=
  match result with
  | .failure => none
  | .success finalUrl doc =>
      match findInForest "device" doc.children with
      | none => none
      | some device_node =>
          match findChild device_node "friendlyName" with
          | none => none
          | some friendly_name_node =>
              match friendly_name_node.text with
              | none => none
              | some t =>
                  let friendly_name := pyStripStr t
                  let services := deviceServices urljoin finalUrl device_node
                  if services.avTransport.isSome || services.renderingControl.isSome then
                    some (friendly_name, ⟨loc, friendly_name, services⟩)
                  else
                    none

/-- Python `dict` insertion: an existing key is updated in place (its position
kept), a new key is appended. -/
def dictInsert (m : List (String × DeviceInfo)) (k : String) (v : DeviceInfo) :
    List (String × DeviceInfo) :=
  if m.any (fun p => p.1 = k) then
    m.map (fun p => if p.1 = k then (k, v) else p)
  else
    m ++ [(k, v)]

/-- Model of `parse_device_descriptions` (main.py lines 165-210): fold the per-location
processing over the locations, keying records by friendly name.  `fetch`
gives each location's fetch/parse outcome. -/
def parse_device_descriptions (urljoin : String → String → String)
    (fetch : String → FetchResult) (locations : List String) :
    List (String × DeviceInfo) :=
  locations.foldl
    (fun found_devices loc =>
      match processLocation urljoin loc (fetch loc) with
      | none => found_devices
      | some (k, v) => dictInsert found_devices k v)
    []

/-! ## The volume-lock worker (`volume_setter_worker`, main.py lines 272-291)

The worker loop is embedded as a trace-producing transition system over
discrete iteration indices.  `stop k` is the value `stop_event.is_set()`
observes at the loop's `k`-th check; since `threading.Event` is monotone
(only ever set, never cleared by this program), a well-formed schedule
satisfies `stop i = true → stop j = true` for `i ≤ j`.  The network may
behave differently on each attempt, so attempt `k` runs against the oracle
`httpAt k`.  `stop_event.wait(timeout=interval)` returns as soon as the flag
is set; the wait of iteration `k` is recorded as woken-by-stop exactly when
the flag is set by the next check, i.e. `stop (k+1) = true`.  `fuel` bounds
the unrolling only: a run that exhausts fuel without observing the stop flag
is reported as still running (`exited = false`). -/

/-- Observable events of one worker run, in order.  `writeStatus b` is the
assignment `shared_status['success'] = success` performed inside
`with status_lock:`. -/
inductive WorkerEv where
  | callSetVolume (success : Bool)
  | writeStatus (success : Bool)
  | wait (wokenByStop : Bool)
deriving DecidableEq, Repr

/-- Model of `volume_setter_worker` (main.py lines 285-291), unrolled from check `k`
with `fuel` remaining checks: the event trace, and whether the loop exited
by observing the stop flag (rather than running out of fuel). -/
def volume_setter_worker (device_info : DeviceInfo) (volume : Int)
    (httpAt : Nat → SoapRequest → HttpOutcome) (stop : Nat → Bool) :
    Nat → Nat → List WorkerEv × Bool
  | 0, _ => ([], false)
  | fuel + 1, k =>
      if stop k then ([], true)
      else
        let success := (set_volume (httpAt k) device_info volume).1
        let rest := volume_setter_worker device_info volume httpAt stop fuel (k + 1)
        (.callSetVolume success :: .writeStatus success :: .wait (stop (k + 1)) :: rest.1,
         rest.2)

/-- The trace of the first `n` full iterations starting at check `k`:
iteration `i` calls `set_volume`, writes that same attempt's boolean result
to the shared state, then waits, waking early iff the stop flag is set by the
next check. -/
def workerBlock (device_info : DeviceInfo) (volume : Int)
    (httpAt : Nat → SoapRequest → HttpOutcome) (stop : Nat → Bool)
    (k : Nat) : List WorkerEv :=
  let success := (set_volume (httpAt k) device_info volume).1
  [.callSetVolume success, .writeStatus success, .wait (stop (k + 1))]

/-- Concatenation of the iteration blocks `k, k+1, ..., k+n-1`. -/
def workerBlocks (device_info : DeviceInfo) (volume : Int)
    (httpAt : Nat → SoapRequest → HttpOutcome) (stop : Nat → Bool)
    (k : Nat) : Nat → List WorkerEv
  | 0 => []
  | n + 1 =>
      workerBlock device_info volume httpAt stop k ++
      workerBlocks device_info volume httpAt stop (k + 1) n

/-! ## Theorems -/

/-- Folding the line scanner accumulates exactly the extracted values. -/
theorem foldl_scanLine (lines : List (List Char)) (s : Finset (List Char)) :
    lines.foldl scanLine s = s ∪ (lines.filterMap extractLoc).toFinset := by
  induction lines generalizing s with
  | nil => simp
  | cons l t ih =>
      simp only [List.foldl_cons, List.filterMap_cons]
      cases h : extractLoc l with
      | none => simp [scanLine, h, ih]
      | some v =>
          simp only [scanLine, h, ih, List.toFinset_cons]
          simp [Finset.insert_union, Finset.union_insert]

/-- The accumulated location set is the set of the extracted values. -/
theorem discover_locations_eq (replies : List (List Char)) :
    discover_locations replies = (locationValues replies).toFinset := by
  suffices h : ∀ s : Finset (List Char),
      replies.foldl scanReply s = s ∪ (locationValues replies).toFinset by
    simpa [discover_locations] using h ∅
  induction replies with
  | nil => intro s; simp [locationValues]
  | cons r t ih =>
      intro s
      simp only [List.foldl_cons, locationValues, List.flatMap_cons,
        List.toFinset_append]
      rw [scanReply, foldl_scanLine, ih]
      rw [Finset.union_assoc]
      rfl

/-- C6: for any stream of raw discovery replies, the size of the location set
accumulated by `discover_devices` (lines 146-151) equals the number of
distinct trimmed `LOCATION` values occurring in the replies' header lines
(matched case-insensitively), duplicates and surrounding whitespace
notwithstanding. -/
theorem discover_locations_card (replies : List (List Char)) :
    (discover_locations replies).card = (locationValues replies).dedup.length := by
  rw [discover_locations_eq]
  exact List.card_toFinset _

/-- C8 counterexample: a discovery call from which an uncaught exception
(e.g. `KeyboardInterrupt`) escapes during the listen window leaves every
opened socket unclosed — the close loop at lines 157-158 is not protected by
any `finally`/`with` scope. -/
theorem discovery_socket_leak :
    socketsOpened (.windowEscape 3) = 3 ∧
    socketsClosed (.windowEscape 3) = 0 ∧
    socketsClosed (.windowEscape 3) ≠ socketsOpened (.windowEscape 3) := by
  refine ⟨rfl, rfl, ?_⟩
  decide

/-- C8 amended: every socket opened by a discovery call is closed before the
call returns on the path where the listen window runs to completion, and the
early-return paths return with no socket open; only an exception escaping
the listen window skips the close loop. -/
theorem sockets_closed_on_return_paths :
    (∀ n, socketsClosed (.completed n) = socketsOpened (.completed n)) ∧
    socketsClosed .interfacesError = socketsOpened .interfacesError ∧
    socketsClosed .noSockets = socketsOpened .noSockets ∧
    (∀ e, socketsOpened e = 0 → socketsClosed e = 0) := by
  refine ⟨fun n => rfl, rfl, rfl, fun e h => ?_⟩
  cases e <;> simp_all [socketsOpened, socketsClosed]

/-- Closed instance of the amended C8 statement. -/
theorem sockets_closed_on_return_paths_witness :
    socketsClosed (.completed 4) = socketsOpened (.completed 4) ∧
    socketsClosed .noSockets = 0 :=
  ⟨sockets_closed_on_return_paths.1 4,
   sockets_closed_on_return_paths.2.2.2 .noSockets rfl⟩

/-- Characterisation of the `raise_for_status` guard. -/
theorem raise_for_status_raises_iff (s : Nat) :
    raise_for_status_raises s = true ↔ 400 ≤ s ∧ s < 600 := by
  simp [raise_for_status_raises]

/-- C7 counterexample: a final response with the non-2xx status 304 passes
`raise_for_status` and is returned to the caller, not turned into `None`. -/
theorem send_soap_request_304_not_failure :
    send_soap_request (fun _ => .response ⟨304, ""⟩)
        ⟨"http://10.0.0.5/ctrl", "urn:schemas-upnp-org:service:AVTransport:1",
         "Play", "<InstanceID>0</InstanceID><Speed>1</Speed>"⟩ =
      some ⟨304, ""⟩ ∧
    ¬(200 ≤ 304 ∧ 304 < 300) := by
  exact ⟨rfl, by decide⟩

/-- C7 amended: the SOAP request primitive returns `None` exactly when the
POST raises a transport error or the final response carries a 4xx or 5xx
status; other non-2xx final statuses (1xx, 3xx such as 304) are returned as
responses. -/
theorem send_soap_request_failure_iff (http : SoapRequest → HttpOutcome)
    (r : SoapRequest) :
    send_soap_request http r = none ↔
      http r = .transportError ∨
      ∃ resp, http r = .response resp ∧ 400 ≤ resp.status ∧ resp.status < 600 := by
  cases h : http r with
  | transportError => simp [send_soap_request, h]
  | response resp =>
      by_cases hc : 400 ≤ resp.status ∧ resp.status < 600
      · simp [send_soap_request, h, (raise_for_status_raises_iff resp.status).mpr hc, hc]
      · have hfalse : raise_for_status_raises resp.status = false := by
          rw [← Bool.not_eq_true, raise_for_status_raises_iff]
          exact hc
        simp [send_soap_request, h, hfalse, hc]

/-- Closed instance of the amended C7 statement: a transport error is a
failure. -/
theorem send_soap_request_failure_iff_witness :
    send_soap_request (fun _ => .transportError)
        ⟨"http://10.0.0.5/ctrl", "urn:schemas-upnp-org:service:AVTransport:1",
         "Play", "<InstanceID>0</InstanceID><Speed>1</Speed>"⟩ = none :=
  (send_soap_request_failure_iff (fun _ => .transportError) _).mpr (Or.inl rfl)

/-! ## Concrete network oracles and device records used as instances -/

/-- A network on which every POST yields `200 OK`. -/
def httpOK : SoapRequest → HttpOutcome := fun _ => .response ⟨200, "OK"⟩

/-- A network on which every POST yields a `500` server error. -/
def http500 : SoapRequest → HttpOutcome := fun _ => .response ⟨500, "ERR"⟩

/-- An `AVTransport` service endpoint. -/
def avEndpoint : ServiceEndpoint :=
  ⟨"urn:schemas-upnp-org:service:AVTransport:1",
   "http://10.0.0.5:1400/AVTransport/Control"⟩

/-- A `RenderingControl` service endpoint. -/
def rcEndpoint : ServiceEndpoint :=
  ⟨"urn:schemas-upnp-org:service:RenderingControl:1",
   "http://10.0.0.5:1400/RenderingControl/Control"⟩

/-- A device exposing only `AVTransport`. -/
def devAV : DeviceInfo :=
  ⟨"http://10.0.0.5:1400/desc.xml", "Living Room", ⟨some avEndpoint, none⟩⟩

/-- A device exposing only `RenderingControl`. -/
def devRC : DeviceInfo :=
  ⟨"http://10.0.0.5:1400/desc.xml", "Living Room", ⟨none, some rcEndpoint⟩⟩

/-- A device record with neither capability. -/
def devBare : DeviceInfo :=
  ⟨"http://10.0.0.7:1400/desc.xml", "Bare", ⟨none, none⟩⟩

/-- C1: for a device exposing `AVTransport`, `set_media_and_play` succeeds
iff both the `SetAVTransportURI` POST and the `Play` POST return responses;
when `SetAVTransportURI` fails, it returns `false` having issued only that
one request, and never issues `Play`. -/
theorem set_media_and_play_spec (http : SoapRequest → HttpOutcome)
    (device_info : DeviceInfo) (media_url : String) (av : ServiceEndpoint)
    (hav : device_info.services.avTransport = some av) :
    ((set_media_and_play http device_info media_url).1 = true ↔
      (send_soap_request http (setURIRequest av media_url)).isSome = true ∧
      (send_soap_request http (playRequest av)).isSome = true) ∧
    (send_soap_request http (setURIRequest av media_url) = none →
      set_media_and_play http device_info media_url =
        (false, [setURIRequest av media_url]) ∧
      playRequest av ∉ (set_media_and_play http device_info media_url).2) := by
  have hne : playRequest av ≠ setURIRequest av media_url := by
    simp [playRequest, setURIRequest]
  cases h1 : send_soap_request http (setURIRequest av media_url) with
  | none =>
      constructor
      · simp [set_media_and_play, hav, h1]
      · intro _
        constructor
        · simp [set_media_and_play, hav, h1]
        · simp [set_media_and_play, hav, h1, hne]
  | some r1 =>
      constructor
      · simp [set_media_and_play, hav, h1]
      · intro hcontra
        exact Option.noConfusion hcontra

/-- Closed instance of C1: on an all-200 network both steps succeed and the
result is `true`; on an all-500 network the first step fails, the result is
`false`, and only `SetAVTransportURI` was issued. -/
theorem set_media_and_play_spec_witness :
    (set_media_and_play httpOK devAV "http://example.com/video.mp4").1 = true ∧
    set_media_and_play http500 devAV "http://example.com/video.mp4" =
      (false, [setURIRequest avEndpoint "http://example.com/video.mp4"]) := by
  constructor
  · exact (set_media_and_play_spec httpOK devAV "http://example.com/video.mp4"
      avEndpoint rfl).1.mpr ⟨rfl, rfl⟩
  · exact ((set_media_and_play_spec http500 devAV "http://example.com/video.mp4"
      avEndpoint rfl).2 (by rfl)).1

/-- C4: a device record lacking the required capability is refused before any
network request: without `AVTransport`, `set_media_and_play` returns `false`
having issued no request; without `RenderingControl`, `set_volume` returns
`false` having issued no request. -/
theorem capability_missing_refused (http : SoapRequest → HttpOutcome)
    (device_info : DeviceInfo) (media_url : String) (volume : Int) :
    (device_info.services.avTransport = none →
      set_media_and_play http device_info media_url = (false, [])) ∧
    (device_info.services.renderingControl = none →
      set_volume http device_info volume = (false, [])) := by
  constructor
  · intro h; simp [set_media_and_play, h]
  · intro h; simp [set_volume, h]

/-- Closed instance of C4: a record with neither capability is refused on
both actions with zero requests issued, and a record with only
`RenderingControl` is refused on `set_media_and_play`. -/
theorem capability_missing_refused_witness :
    set_media_and_play httpOK devBare "http://example.com/video.mp4" = (false, []) ∧
    set_volume httpOK devBare 30 = (false, []) ∧
    set_media_and_play httpOK devRC "http://example.com/video.mp4" = (false, []) :=
  ⟨(capability_missing_refused httpOK devBare "http://example.com/video.mp4" 30).1 rfl,
   (capability_missing_refused httpOK devBare "http://example.com/video.mp4" 30).2 rfl,
   (capability_missing_refused httpOK devRC "http://example.com/video.mp4" 30).1 rfl⟩

/-! ## Resolver fixtures -/

/-- A concrete stand-in for `urllib.parse.urljoin` used when instantiating
theorems that are universally quantified over the URL-resolution function. -/
def concatJoin (base rel : String) : String := base ++ rel

/-- A service entry advertising `RenderingControl` (version 2 suffix). -/
def svcRC : XmlElem :=
  .mk "service" none (.ofList
    [.mk "serviceType" (some "urn:schemas-upnp-org:service:RenderingControl:2") .nil,
     .mk "controlURL" (some "/RC/ctrl") .nil])

/-- A service entry whose type string contains both `AVTransport` and
`RenderingControl`. -/
def svcBoth : XmlElem :=
  .mk "service" none (.ofList
    [.mk "serviceType"
       (some "urn:schemas-upnp-org:service:AVTransportRenderingControl:1") .nil,
     .mk "controlURL" (some "/ctrl") .nil])

/-- C2 counterexample: a service entry whose type string contains both
`AVTransport` and `RenderingControl` is recorded under `AVTransport` only —
the `elif` at line 199 leaves the `RenderingControl` slot untouched, although
the type string does contain `RenderingControl`. -/
theorem processService_both_substrings :
    containsSubStr "RenderingControl"
        "urn:schemas-upnp-org:service:AVTransportRenderingControl:1" = true ∧
    processService concatJoin "http://10.0.0.9" ⟨none, none⟩ svcBoth =
      ⟨some ⟨"urn:schemas-upnp-org:service:AVTransportRenderingControl:1",
             "http://10.0.0.9/ctrl"⟩, none⟩ := by
  exact ⟨rfl, rfl⟩

/-- C2 amended: for a service entry with both `serviceType` and `controlURL`
present, a type string containing `AVTransport` is recorded under the
`AVTransport` tag, and one containing `RenderingControl` — provided it does
not also contain `AVTransport`, which the `elif` gives priority — is recorded
under the `RenderingControl` tag, in both cases regardless of any version
suffix in the type string. -/
theorem processService_classification (urljoin : String → String → String)
    (base_url : String) (acc : Services) (service : XmlElem)
    (stn cun : XmlElem) (service_type cu_text : String)
    (hst : findChild service "serviceType" = some stn)
    (hcu : findChild service "controlURL" = some cun)
    (hstt : stn.text = some service_type)
    (hcut : cun.text = some cu_text) :
    (containsSubStr "AVTransport" service_type = true →
      processService urljoin base_url acc service =
        ⟨some ⟨service_type, urljoin base_url cu_text⟩, acc.renderingControl⟩) ∧
    (containsSubStr "RenderingControl" service_type = true →
     containsSubStr "AVTransport" service_type = false →
      processService urljoin base_url acc service =
        ⟨acc.avTransport, some ⟨service_type, urljoin base_url cu_text⟩⟩) := by
  constructor
  · intro h
    simp [processService, hst, hcu, hstt, hcut, h]
  · intro h1 h2
    simp [processService, hst, hcu, hstt, hcut, h1, h2]

/-- Closed instance of the amended C2 statement: a `RenderingControl:2`
service entry lands in the `RenderingControl` slot despite the version
suffix. -/
theorem processService_classification_witness :
    processService concatJoin "http://10.0.0.9" ⟨none, none⟩ svcRC =
      ⟨none, some ⟨"urn:schemas-upnp-org:service:RenderingControl:2",
                   "http://10.0.0.9/RC/ctrl"⟩⟩ :=
  (processService_classification concatJoin "http://10.0.0.9" ⟨none, none⟩ svcRC
    (.mk "serviceType" (some "urn:schemas-upnp-org:service:RenderingControl:2") .nil)
    (.mk "controlURL" (some "/RC/ctrl") .nil)
    "urn:schemas-upnp-org:service:RenderingControl:2" "/RC/ctrl"
    rfl rfl rfl rfl).2 rfl rfl

/-- Any record produced by the per-location processing carries at least one
capability (the guard at line 202). -/
theorem processLocation_capability (urljoin : String → String → String)
    (loc : String) (result : FetchResult) (k : String) (v : DeviceInfo)
    (h : processLocation urljoin loc result = some (k, v)) :
    (v.services.avTransport.isSome || v.services.renderingControl.isSome) = true := by
  cases result with
  | failure => simp [processLocation] at h
  | success finalUrl doc =>
      cases hdev : findInForest "device" doc.children with
      | none => simp [processLocation, hdev] at h
      | some dn =>
          cases hfn : findChild dn "friendlyName" with
          | none => simp [processLocation, hdev, hfn] at h
          | some fnode =>
              cases htext : fnode.text with
              | none => simp [processLocation, hdev, hfn, htext] at h
              | some t =>
                  simp only [processLocation, hdev, hfn, htext] at h
                  split at h
                  · rename_i hcap
                    simp only [Option.some.injEq, Prod.mk.injEq] at h
                    rw [← h.2]
                    exact hcap
                  · exact absurd h (by simp)

/-- Updating one key of the device dict preserves a property of all values
provided the new value has it. -/
theorem dictInsert_forall {P : DeviceInfo → Prop}
    (m : List (String × DeviceInfo)) (k : String) (v : DeviceInfo)
    (hm : ∀ p ∈ m, P p.2) (hv : P v) :
    ∀ p ∈ dictInsert m k v, P p.2 := by
  intro p hp
  unfold dictInsert at hp
  split at hp
  · rcases List.mem_map.1 hp with ⟨q, hq, hpq⟩
    split at hpq
    · rw [← hpq]; exact hv
    · rw [← hpq]; exact hm q hq
  · rcases List.mem_append.1 hp with hq | hq
    · exact hm p hq
    · rw [List.mem_singleton.1 hq]; exact hv

/-- C5: every record in the mapping returned by the resolver carries at least
one of the two capability tags, and a parsed document whose first device
yields neither capability produces no record for its location at all. -/
theorem parse_device_descriptions_capability
    (urljoin : String → String → String) (fetch : String → FetchResult)
    (locations : List String) :
    (∀ p ∈ parse_device_descriptions urljoin fetch locations,
       (p.2.services.avTransport.isSome || p.2.services.renderingControl.isSome) = true) ∧
    (∀ loc finalUrl : String, ∀ doc device_node : XmlElem,
       findInForest "device" doc.children = some device_node →
       deviceServices urljoin finalUrl device_node = ⟨none, none⟩ →
       processLocation urljoin loc (.success finalUrl doc) = none) := by
  constructor
  · unfold parse_device_descriptions
    have hgen : ∀ (locs : List String) (m : List (String × DeviceInfo)),
        (∀ p ∈ m, (p.2.services.avTransport.isSome ||
                   p.2.services.renderingControl.isSome) = true) →
        ∀ p ∈ locs.foldl
            (fun found_devices loc =>
              match processLocation urljoin loc (fetch loc) with
              | none => found_devices
              | some (k, v) => dictInsert found_devices k v) m,
          (p.2.services.avTransport.isSome ||
           p.2.services.renderingControl.isSome) = true := by
      intro locs
      induction locs with
      | nil => intro m hm; simpa using hm
      | cons loc rest ih =>
          intro m hm
          simp only [List.foldl_cons]
          cases hpl : processLocation urljoin loc (fetch loc) with
          | none => exact ih m hm
          | some kv =>
              cases kv with
              | mk k v =>
                  exact ih (dictInsert m k v)
                    (@dictInsert_forall
                      (fun d => (d.services.avTransport.isSome ||
                                 d.services.renderingControl.isSome) = true)
                      m k v hm
                      (processLocation_capability urljoin loc (fetch loc) k v hpl))
    exact hgen locations [] (by simp)
  · intro loc finalUrl doc device_node hdev hsvc
    cases hfn : findChild device_node "friendlyName" with
    | none => simp [processLocation, hdev, hfn]
    | some fnode =>
        cases htext : fnode.text with
        | none => simp [processLocation, hdev, hfn, htext]
        | some t => simp [processLocation, hdev, hfn, htext, hsvc]

/-- A device node whose friendly name is whitespace-only. -/
def devNodeWS : XmlElem :=
  .mk "device" none (.ofList
    [.mk "friendlyName" (some "   ") .nil,
     .mk "serviceList" none (.ofList [svcRC])])

/-- A description document around `devNodeWS`. -/
def docWS : XmlElem := .mk "root" none (.ofList [devNodeWS])

/-- A fetch oracle serving `docWS` for every location. -/
def fetchWS : String → FetchResult := fun _ => .success "http://10.0.0.9" docWS

/-- A device node with an ordinary friendly name and one service. -/
def devNodeTV : XmlElem :=
  .mk "device" none (.ofList
    [.mk "friendlyName" (some "  TV  ") .nil,
     .mk "serviceList" none (.ofList [svcRC])])

/-- A description document around `devNodeTV`. -/
def docTV : XmlElem := .mk "root" none (.ofList [devNodeTV])

/-- A fetch oracle serving `docTV` for every location. -/
def fetchTV : String → FetchResult := fun _ => .success "http://10.0.0.9" docTV

/-- The record `docTV` resolves to. -/
def recTV : DeviceInfo :=
  ⟨"http://10.0.0.9/desc.xml", "TV",
   ⟨none, some ⟨"urn:schemas-upnp-org:service:RenderingControl:2",
                "http://10.0.0.9/RC/ctrl"⟩⟩⟩

/-- Closed instance of C5: the one record resolved from `docTV` carries a
capability. -/
theorem parse_device_descriptions_capability_witness :
    (recTV.services.avTransport.isSome || recTV.services.renderingControl.isSome) = true :=
  (parse_device_descriptions_capability concatJoin fetchTV
      ["http://10.0.0.9/desc.xml"]).1 ("TV", recTV) (by decide)

/-- Stripping a whitespace-only Python string yields the empty string. -/
theorem pyStripStr_whitespace (w : String) (h : w.data.all isPyWhitespace = true) :
    pyStripStr w = "" := by
  have h' : ∀ c ∈ w.data, isPyWhitespace c = true := fun c hc =>
    List.all_eq_true.1 h c hc
  have h1 : w.data.dropWhile isPyWhitespace = [] :=
    List.dropWhile_eq_nil_iff.mpr h'
  simp [pyStripStr, pyStrip, h1]

/-- C9: a present `friendlyName` whose text is whitespace-only is not treated
as missing — provided the device yields at least one capability, the resolver
returns a record keyed by the empty string. -/
theorem resolver_whitespace_friendly_name
    (urljoin : String → String → String) (fetch : String → FetchResult)
    (loc finalUrl : String) (doc device_node fnode : XmlElem) (w : String)
    (hfetch : fetch loc = .success finalUrl doc)
    (hdev : findInForest "device" doc.children = some device_node)
    (hfn : findChild device_node "friendlyName" = some fnode)
    (htext : fnode.text = some w)
    (hws : w.data.all isPyWhitespace = true)
    (hcap : ((deviceServices urljoin finalUrl device_node).avTransport.isSome ||
             (deviceServices urljoin finalUrl device_node).renderingControl.isSome) = true) :
    parse_device_descriptions urljoin fetch [loc] =
      [("", ⟨loc, "", deviceServices urljoin finalUrl device_node⟩)] := by
  have hstrip := pyStripStr_whitespace w hws
  have hcap2 : (deviceServices urljoin finalUrl device_node).avTransport.isSome = true ∨
      (deviceServices urljoin finalUrl device_node).renderingControl.isSome = true := by
    simpa using hcap
  simp [parse_device_descriptions, processLocation, hfetch, hdev, hfn, htext,
    hstrip, hcap2, dictInsert]

/-- Closed instance of C9: a friendly name of three spaces yields a record
keyed by `""`. -/
theorem resolver_whitespace_friendly_name_witness :
    parse_device_descriptions concatJoin fetchWS ["http://10.0.0.9/desc.xml"] =
      [("", ⟨"http://10.0.0.9/desc.xml", "",
             deviceServices concatJoin "http://10.0.0.9" devNodeWS⟩)] :=
  resolver_whitespace_friendly_name concatJoin fetchWS "http://10.0.0.9/desc.xml"
    "http://10.0.0.9" docWS devNodeWS (.mk "friendlyName" (some "   ") .nil) "   "
    rfl rfl rfl rfl (by decide) rfl

/-- A service entry advertising `AVTransport`, placed inside an embedded
device below. -/
def svcAVEmb : XmlElem :=
  .mk "service" none (.ofList
    [.mk "serviceType" (some "urn:schemas-upnp-org:service:AVTransport:1") .nil,
     .mk "controlURL" (some "/AVT/ctrl") .nil])

/-- An embedded device carrying the only `serviceList` of the document. -/
def devNodeInner : XmlElem :=
  .mk "device" none (.ofList
    [.mk "friendlyName" (some "Inner") .nil,
     .mk "serviceList" none (.ofList [svcAVEmb])])

/-- A first device with no direct `serviceList`, only an embedded device
inside its `deviceList`. -/
def devNodeCombo : XmlElem :=
  .mk "device" none (.ofList
    [.mk "friendlyName" (some "Combo") .nil,
     .mk "deviceList" none (.ofList [devNodeInner])])

/-- A description document whose only `serviceList` sits under an embedded
device element. -/
def docEmbedded : XmlElem := .mk "root" none (.ofList [devNodeCombo])

/-- C10 counterexample: service entries under an embedded device element can
contribute — when the first device has no direct `serviceList`, the
`.//serviceList` search at line 185 descends into the embedded device, and
its `AVTransport` entry ends up in the resolved record. -/
theorem processLocation_embedded_device_contributes :
    processLocation concatJoin "http://h/desc.xml"
        (.success "http://h" docEmbedded) =
      some ("Combo",
        ⟨"http://h/desc.xml", "Combo",
         ⟨some ⟨"urn:schemas-upnp-org:service:AVTransport:1", "http://h/AVT/ctrl"⟩,
          none⟩⟩) := rfl

/-- C10 amended: the resolver's output for a location depends only on the
first `device` element of the document in preorder document order, and the
services of the record depend only on the first `serviceList` element in
that device's subtree in document order — which may itself sit inside an
embedded device element; service entries in any other `serviceList`, or in
devices outside the first device's subtree, contribute nothing. -/
theorem resolver_uses_first_device_first_serviceList
    (urljoin : String → String → String) (loc base_url : String) :
    (∀ doc doc2 : XmlElem,
       findInForest "device" doc.children = findInForest "device" doc2.children →
       processLocation urljoin loc (.success base_url doc) =
         processLocation urljoin loc (.success base_url doc2)) ∧
    (∀ dn dn2 : XmlElem,
       findInForest "serviceList" dn.children =
         findInForest "serviceList" dn2.children →
       deviceServices urljoin base_url dn = deviceServices urljoin base_url dn2) := by
  constructor
  · intro doc doc2 h
    simp only [processLocation]
    rw [h]
  · intro dn dn2 h
    simp only [deviceServices]
    rw [h]

/-- A document with presentation clutter before the same first device and a
second device after it. -/
def docTVJunk : XmlElem :=
  .mk "root" none (.ofList
    [.mk "specVersion" none .nil,
     devNodeTV,
     .mk "device" none (.ofList [.mk "friendlyName" (some "Other") .nil])])

/-- Closed instance of the amended C10 statement: adding clutter around the
unchanged first device does not change the resolved record. -/
theorem resolver_uses_first_device_first_serviceList_witness :
    processLocation concatJoin "http://10.0.0.9/desc.xml"
        (.success "http://10.0.0.9" docTV) =
      processLocation concatJoin "http://10.0.0.9/desc.xml"
        (.success "http://10.0.0.9" docTVJunk) :=
  (resolver_uses_first_device_first_serviceList concatJoin
    "http://10.0.0.9/desc.xml" "http://10.0.0.9").1 docTV docTVJunk rfl

/-- The worker can only have exited because some check observed the stop
flag. -/
theorem volume_setter_worker_exit (d : DeviceInfo) (v : Int)
    (httpAt : Nat → SoapRequest → HttpOutcome) (stop : Nat → Bool) :
    ∀ fuel k, (volume_setter_worker d v httpAt stop fuel k).2 = true →
      ∃ j, stop j = true := by
  intro fuel
  induction fuel with
  | zero => intro k h; simp [volume_setter_worker] at h
  | succ n ih =>
      intro k h
      by_cases hs : stop k = true
      · exact ⟨k, hs⟩
      · rw [Bool.not_eq_true] at hs
        simp only [volume_setter_worker, hs] at h
        simp at h
        exact ih (k + 1) h

/-- A run whose first observed stop is at check `k + n` consists of exactly
the iteration blocks `k .. k+n-1` and exits. -/
theorem volume_setter_worker_run (d : DeviceInfo) (v : Int)
    (httpAt : Nat → SoapRequest → HttpOutcome) (stop : Nat → Bool) :
    ∀ n fuel k, stop (k + n) = true → (∀ j, j < n → stop (k + j) = false) →
      n < fuel →
      volume_setter_worker d v httpAt stop fuel k =
        (workerBlocks d v httpAt stop k n, true) := by
  intro n
  induction n with
  | zero =>
      intro fuel k hstop _ hfuel
      cases fuel with
      | zero => omega
      | succ m =>
          simp only [Nat.add_zero] at hstop
          simp [volume_setter_worker, hstop, workerBlocks]
  | succ n ih =>
      intro fuel k hstop hfalse hfuel
      cases fuel with
      | zero => omega
      | succ m =>
          have hk : stop k = false := by
            have h0 := hfalse 0 (Nat.succ_pos n)
            simpa using h0
          have hrest := ih m (k + 1)
            (by rw [show k + 1 + n = k + (n + 1) from by omega]; exact hstop)
            (by intro j hj
                have hjj := hfalse (j + 1) (by omega)
                rw [show k + (j + 1) = k + 1 + j from by omega] at hjj
                exact hjj)
            (by omega)
          simp only [volume_setter_worker, hk]
          rw [hrest]
          simp [workerBlocks, workerBlock]

/-- Peeling the last iteration block off a run of `n + 1` blocks. -/
theorem workerBlocks_snoc (d : DeviceInfo) (v : Int)
    (httpAt : Nat → SoapRequest → HttpOutcome) (stop : Nat → Bool) :
    ∀ n k, workerBlocks d v httpAt stop k (n + 1) =
      workerBlocks d v httpAt stop k n ++ workerBlock d v httpAt stop (k + n) := by
  intro n
  induction n with
  | zero => intro k; simp [workerBlocks, workerBlock]
  | succ m ih =>
      intro k
      have h1 : workerBlocks d v httpAt stop k (m + 1 + 1) =
          workerBlock d v httpAt stop k ++
            workerBlocks d v httpAt stop (k + 1) (m + 1) := rfl
      have h2 : workerBlocks d v httpAt stop k (m + 1) =
          workerBlock d v httpAt stop k ++
            workerBlocks d v httpAt stop (k + 1) m := rfl
      rw [h1, ih (k + 1), h2, List.append_assoc,
        show k + 1 + m = k + (m + 1) from by omega]

/-- C3: over any monotone stop schedule, (a) the setter loop exits only when
a check observes the stop flag — it never terminates on its own; (b) a run
first observing stop at check `n` performs exactly `n` iterations, each of
which calls `set_volume`, writes that same attempt's boolean result to the
shared state under the lock, and then waits; (c) when the stop signal fires
during iteration `k`'s inter-attempt wait, that wait wakes early (within one
tick) and the loop exits at the very next check, with no further wait or
iteration. -/
theorem volume_setter_worker_spec (d : DeviceInfo) (v : Int)
    (httpAt : Nat → SoapRequest → HttpOutcome) (stop : Nat → Bool)
    (hmono : ∀ i j, i ≤ j → stop i = true → stop j = true) :
    (∀ fuel k, (volume_setter_worker d v httpAt stop fuel k).2 = true →
       ∃ j, stop j = true) ∧
    (∀ n fuel, stop n = true → (∀ j, j < n → stop j = false) → n < fuel →
       volume_setter_worker d v httpAt stop fuel 0 =
         (workerBlocks d v httpAt stop 0 n, true)) ∧
    (∀ k fuel, stop k = false → stop (k + 1) = true → k + 1 < fuel →
       volume_setter_worker d v httpAt stop fuel 0 =
         (workerBlocks d v httpAt stop 0 k ++
            [.callSetVolume (set_volume (httpAt k) d v).1,
             .writeStatus (set_volume (httpAt k) d v).1,
             .wait true], true)) := by
  refine ⟨volume_setter_worker_exit d v httpAt stop, ?_, ?_⟩
  · intro n fuel hn hfalse hfuel
    have h := volume_setter_worker_run d v httpAt stop n fuel 0
      (by simpa using hn) (by intro j hj; simpa using hfalse j hj) hfuel
    exact h
  · intro k fuel hk hk1 hfuel
    have hfalse : ∀ j, j < k + 1 → stop j = false := by
      intro j hj
      by_contra hcon
      rw [Bool.not_eq_false] at hcon
      have hkk : stop k = true := hmono j k (by omega) hcon
      rw [hk] at hkk
      exact Bool.noConfusion hkk
    have hrun := volume_setter_worker_run d v httpAt stop (k + 1) fuel 0
      (by simpa using hk1) (by intro j hj; simpa using hfalse j hj) hfuel
    rw [hrun, workerBlocks_snoc]
    simp [workerBlock, hk1]

/-- A concrete stop schedule: the flag is set from check 2 on (monotone). -/
def wStop : Nat → Bool := fun j => decide (2 ≤ j)

/-- A concrete per-attempt network: even attempts succeed with `200 OK`,
odd attempts raise a transport error. -/
def wHttpAt : Nat → SoapRequest → HttpOutcome :=
  fun k _ => if k % 2 = 0 then .response ⟨200, "OK"⟩ else .transportError

/-- Closed instance of C3: against the alternating network, the run performs
two iterations — writing the first attempt's `true` and the second attempt's
`false` — and exits right after the wait during which the stop flag fired. -/
theorem volume_setter_worker_spec_witness :
    volume_setter_worker devRC 30 wHttpAt wStop 5 0 =
      ([.callSetVolume true, .writeStatus true, .wait false,
        .callSetVolume false, .writeStatus false, .wait true], true) := by
  have hmono : ∀ i j, i ≤ j → wStop i = true → wStop j = true := by
    intro i j hij hi
    have h2 : 2 ≤ i := of_decide_eq_true hi
    exact decide_eq_true (le_trans h2 hij)
  have h := (volume_setter_worker_spec devRC 30 wHttpAt wStop hmono).2.2 1 5
    rfl rfl (by omega)
  rw [h]
  rfl
